import Mathlib

/-!
Shallow embedding of `src/redis-sentinel/redis-sentinel-demo.py`.

External calls (methods of the `redis.sentinel.Sentinel` and `redis.Redis`
clients) are modelled by explicit environment records: each field holds the
outcome of one library call, with `Except.error ()` standing for a raised
exception and `Except.ok v` for a returned Python value.  Python's
dynamically typed values are modelled by `PyVal`.  Method bodies are
translated statement by statement; a `try/except` block becomes a `match`
on the `Except` value of its body.
-/

namespace RedisSentinelDemo

/-- Python strings, modelled as lists of characters. -/
abbrev PyStr := List Char

/-- Embed a Lean string literal as a `PyStr`. -/
def pys (s : String) : PyStr := s.data

/-- Python runtime values, covering the shapes the demo manipulates.
Tuples (such as the `(host, port)` pair returned by `discover_master`)
are modelled as `list`; `dict` keys are strings, as everywhere in the demo. -/
inductive PyVal where
  | str (s : PyStr)
  | int (n : Int)
  | bool (b : Bool)
  | none
  | list (items : List PyVal)
  | dict (entries : List (PyStr × PyVal))

/-- Lookup in a Python dict modelled as an association list: `d.get(k)`. -/
def alGet {α : Type} : List (PyStr × α) → PyStr → Option α
  | [], _ => none
  | (k2, v) :: t, k => if k2 = k then some v else alGet t k

/-- Assignment `d[k] = v` on a Python dict: overwrite the binding in place
if the key is present, otherwise append it. -/
def alUpsert {α : Type} : List (PyStr × α) → PyStr → α → List (PyStr × α)
  | [], k, v => [(k, v)]
  | (k2, v2) :: t, k, v => if k2 = k then (k, v) :: t else (k2, v2) :: alUpsert t k v

/-- Lookup with default: `d.get(k, dflt)`. -/
def alGetD {α : Type} (l : List (PyStr × α)) (k : PyStr) (dflt : α) : α :=
  (alGet l k).getD dflt

/-- Python truthiness of a value (`if v:`). -/
def pyTruthy : PyVal → Bool
  | .str s => !s.isEmpty
  | .int n => decide (n ≠ 0)
  | .bool b => b
  | .none => false
  | .list l => !l.isEmpty
  | .dict d => !d.isEmpty

/-- Python `s.strip()`: drop whitespace from both ends. -/
def pyStrip (s : PyStr) : PyStr :=
  ((s.dropWhile Char.isWhitespace).reverse.dropWhile Char.isWhitespace).reverse

/-- Accumulate a decimal digit string; fails on any non-digit character. -/
def digitsValAux : List Char → Nat → Option Nat
  | [], acc => some acc
  | c :: t, acc =>
    if c.isDigit then digitsValAux t (acc * 10 + (c.toNat - 48)) else none

/-- Python `int(s)` on a string: surrounding whitespace is ignored, then an
optional sign followed by at least one decimal digit; `none` where Python
raises `ValueError`.  (Underscored digit groups are not modelled; the demo
never feeds them.) -/
def parseIntStr (s : PyStr) : Option Int :=
  match pyStrip s with
  | [] => none
  | '-' :: t => if t.isEmpty then none else (digitsValAux t 0).map (fun n => -(n : Int))
  | '+' :: t => if t.isEmpty then none else (digitsValAux t 0).map (fun n => (n : Int))
  | s2 => (digitsValAux s2 0).map (fun n => (n : Int))

/-- Python `int(v)` as the demo applies it; `none` where Python raises. -/
def pyToIntOpt : PyVal → Option Int
  | .int n => some n
  | .bool b => some (if b then 1 else 0)
  | .str s => parseIntStr s
  | _ => none

/-- Python `str(v)` / f-string conversion.  Composite values get a simplified
placeholder repr; no claim evaluates the repr of a composite value. -/
def pyToStr : PyVal → PyStr
  | .str s => s
  | .int n => (toString n).data
  | .bool b => if b then pys "True" else pys "False"
  | .none => pys "None"
  | .list _ => pys "<list>"
  | .dict _ => pys "<dict>"

/-- Python subscription `v[i]` for the non-negative indices the demo uses
(`master_addr[0]`, `master_addr[1]`); raises on other shapes or out of range. -/
def pyIndex (v : PyVal) (i : Nat) : Except Unit PyVal :=
  match v with
  | .list l =>
    match l.get? i with
    | some x => .ok x
    | none => .error ()
  | .str s =>
    match s.get? i with
    | some c => .ok (.str [c])
    | none => .error ()
  | _ => .error ()

def PyVal.isDict : PyVal → Bool
  | .dict _ => true
  | _ => false

def PyVal.isList : PyVal → Bool
  | .list _ => true
  | _ => false

/-- Worker for `pySplit`, carrying the reversed current chunk. -/
def pySplitAux (sep : Char) : List Char → List Char → List (List Char)
  | [], acc => [acc.reverse]
  | c :: rest, acc =>
    if c = sep then acc.reverse :: pySplitAux sep rest []
    else pySplitAux sep rest (c :: acc)

/-- Python `s.split(sep)` for a one-character separator (an empty input
yields `[""]`, exactly as in Python). -/
def pySplit (sep : Char) (s : PyStr) : List PyStr := pySplitAux sep s []

/-- Parsing loop of the `get_slaves_info` fallback over one replication
entry string, from the source:
for each comma-separated part containing an equals sign, split on the first
equals sign and assign the stripped value to the stripped key. -/
def parseSlaveString (s : PyStr) : List (PyStr × PyStr) :=
  (pySplit ',' s).foldl
    (fun acc part =>
      if '=' ∈ part then
        alUpsert acc (pyStrip (part.takeWhile (fun c => c != '=')))
          (pyStrip ((part.dropWhile (fun c => c != '=')).drop 1))
      else acc) []

/-! ## RedisSentinelManager -/

/-- The fields of `SentinelConfig` the embedded methods read. -/
structure SentinelConfig where
  sentinels : List (PyStr × Int)
  masterName : PyStr

/-- Outcomes of the library calls `get_master_info` can make:
`masters` is the reply of `sentinel.sentinel_masters()` and `discovered`
the reply of `sentinel.discover_master(name)` (consulted only on the
fallback path). -/
structure MasterEnv where
  masters : Except Unit PyVal
  discovered : Except Unit PyVal

/-- Inner `try` of `get_master_info` (the `discover_master` fallback used
when `sentinel_masters` did not return a dict).  A falsy address falls
through to `return {}` just like a caught inner exception does. -/
def discoverFallback (env : MasterEnv) : Except Unit PyVal :=
  match env.discovered with
  | .error e => .error e
  | .ok addr =>
    if pyTruthy addr then
      match pyIndex addr 0, pyIndex addr 1 with
      | .ok ip, .ok port =>
        .ok (.dict [(pys "ip", ip), (pys "port", port),
          (pys "flags", .str (pys "master")),
          (pys "num-slaves", .str (pys "unknown")),
          (pys "num-other-sentinels", .str (pys "unknown"))])
      | _, _ => .error ()
    else .ok (.dict [])

/-- Body of the outer `try` of `RedisSentinelManager.get_master_info`. -/
def get_master_info_try (name : PyStr) (env : MasterEnv) : Except Unit PyVal :=
  match env.masters with
  | .error e => .error e
  | .ok m =>
    match m with
    | .dict d =>
      match alGet d name with
      | some v => .ok v
      | none => .ok (.dict [])
    | _ =>
      match discoverFallback env with
      | .ok v => .ok v
      | .error _ => .ok (.dict [])

/-- `RedisSentinelManager.get_master_info`: the outer `except` returns `{}`. -/
def get_master_info (name : PyStr) (env : MasterEnv) : PyVal :=
  match get_master_info_try name env with
  | .ok v => v
  | .error _ => .dict []

/-- Outcomes of the library calls `get_slaves_info` can make:
`slavesReply` is the reply of `sentinel.sentinel_slaves(name)` and
`replInfo` the reply of `redis_client.info('replication')`. -/
structure SlavesEnv where
  slavesReply : Except Unit PyVal
  replInfo : Except Unit PyVal

/-- One appended row of the `get_slaves_info` fallback: build `slave_data`
from the entry (string entries are parsed, dict entries copied, anything
else contributes nothing since it has no `.get`), then summarize it. -/
def slaveSummary (entry : PyVal) : PyVal :=
  let sd : List (PyStr × PyVal) :=
    match entry with
    | .str s => (parseSlaveString s).map (fun kv => (kv.1, PyVal.str kv.2))
    | .dict kvs => kvs
    | _ => []
  .dict [(pys "ip", .str (pyToStr (alGetD sd (pys "ip") (.str (pys "unknown"))))),
    (pys "port", .str (pyToStr (alGetD sd (pys "port") (.str (pys "unknown"))))),
    (pys "flags", .str (pys "slave," ++ pyToStr (alGetD sd (pys "state") (.str (pys "unknown")))))]

/-- The fallback loop of `get_slaves_info` over a replication-info dict:
read `connected_slaves` (defaulting to 0 on a failed `int()`), then for
each index collect the `slave<i>` entry, skipping absent or falsy ones. -/
def slavesFromInfo (d : List (PyStr × PyVal)) : PyVal :=
  let cnt : Int := (pyToIntOpt (alGetD d (pys "connected_slaves") (.int 0))).getD 0
  .list ((List.range cnt.toNat).filterMap (fun i =>
    match alGet d (pys "slave" ++ (toString i).data) with
    | none => none
    | some e => if pyTruthy e then some (slaveSummary e) else none))

/-- Body of the outer `try` of `RedisSentinelManager.get_slaves_info`.
The inner `try` around the fallback returns `[]` on any exception; calling
`.get` on a non-dict reply of `info('replication')` raises. -/
def get_slaves_info_try (env : SlavesEnv) : Except Unit PyVal :=
  match env.slavesReply with
  | .error e => .error e
  | .ok v =>
    match v with
    | .list l => .ok (.list l)
    | _ =>
      let alt : Except Unit PyVal :=
        match env.replInfo with
        | .error e => .error e
        | .ok info =>
          match info with
          | .dict d => .ok (slavesFromInfo d)
          | _ => .error ()
      match alt with
      | .ok r => .ok r
      | .error _ => .ok (.list [])

/-- `RedisSentinelManager.get_slaves_info`: the outer `except` returns `[]`. -/
def get_slaves_info (env : SlavesEnv) : PyVal :=
  match get_slaves_info_try env with
  | .ok v => v
  | .error _ => .list []

/-- Outcome of the `sentinel.sentinel_sentinels(name)` call. -/
structure SentinelsEnv where
  sentinelsReply : Except Unit PyVal

/-- The fallback of `get_sentinels_info`: one dict per configured
`(host, port)` pair. -/
def configSentinelDicts (sentinels : List (PyStr × Int)) : List PyVal :=
  sentinels.map (fun hp =>
    PyVal.dict [(pys "ip", .str hp.1), (pys "port", .str (pyToStr (.int hp.2))),
      (pys "flags", .str (pys "sentinel"))])

/-- Body of the outer `try` of `RedisSentinelManager.get_sentinels_info`. -/
def get_sentinels_info_try (sentinels : List (PyStr × Int)) (env : SentinelsEnv) :
    Except Unit PyVal :=
  match env.sentinelsReply with
  | .error e => .error e
  | .ok v =>
    match v with
    | .list l => .ok (.list l)
    | _ => .ok (.list (configSentinelDicts sentinels))

/-- `RedisSentinelManager.get_sentinels_info`: the outer `except` returns `[]`. -/
def get_sentinels_info (sentinels : List (PyStr × Int)) (env : SentinelsEnv) : PyVal :=
  match get_sentinels_info_try sentinels env with
  | .ok v => v
  | .error _ => .list []

/-- The f-string building the address shown by `test_failover`:
the `.get` calls raise `AttributeError` when `get_master_info` handed back
a non-dict value. -/
def addrString (m : PyVal) : Except Unit PyStr :=
  match m with
  | .dict d =>
    .ok (pyToStr (alGetD d (pys "ip") (.str (pys "unknown"))) ++ pys ":"
      ++ pyToStr (alGetD d (pys "port") (.str (pys "unknown"))))
  | _ => .error ()

/-- Outcomes of the external calls made by one `test_failover` invocation:
the `get_master_info` environment before the trigger, the reply of
`sentinel.sentinel_failover(name)`, and the `get_master_info` environment
after the five-second wait. -/
structure FailoverEnv where
  before : MasterEnv
  failoverReply : Except Unit PyVal
  after : MasterEnv

/-- `RedisSentinelManager.test_failover`, instrumented with the number of
times the `sentinel_failover` command is issued (second component).  All
exception paths are caught by the outer `except`, which returns `False`. -/
def test_failover_traced (name : PyStr) (env : FailoverEnv) : Bool × Nat :=
  match addrString (get_master_info name env.before) with
  | .error _ => (false, 0)
  | .ok currentAddr =>
    match env.failoverReply with
    | .error _ => (false, 1)
    | .ok r =>
      if pyTruthy r then
        match addrString (get_master_info name env.after) with
        | .error _ => (false, 1)
        | .ok newAddr => (decide (newAddr ≠ currentAddr), 1)
      else (false, 1)

/-- The boolean result of `test_failover`. -/
def test_failover (name : PyStr) (env : FailoverEnv) : Bool :=
  (test_failover_traced name env).1

/-- How many times one `test_failover` invocation issued the failover
command. -/
def failoverCommandCount (name : PyStr) (env : FailoverEnv) : Nat :=
  (test_failover_traced name env).2

/-! ## SessionManager and CounterManager

The Redis key space is modelled as an association list from keys to a value
together with its absolute expiry time.  Values stored through
`json.dumps` and read back through `json.loads` are modelled by the parsed
value itself (the demo always round-trips them), and `datetime.now().isoformat()`
is modelled by an injective rendering of the current clock value. -/

/-- The Redis key space: key, stored value, absolute expiry time. -/
abbrev Store := List (PyStr × (PyVal × Nat))

/-- A Redis client connection; when `failing` is set every operation on it
raises, modelling an unreachable or broken master. -/
structure RedisConn where
  failing : Bool
  store : Store

/-- Redis `GET`: a key is visible while the clock is before its expiry. -/
def storeGet (s : Store) (now : Nat) (k : PyStr) : Option PyVal :=
  match alGet s k with
  | some (v, exp) => if now < exp then some v else none
  | none => none

/-- Redis `SETEX`: store the value with expiry `now + ttl`. -/
def storeSetex (s : Store) (now : Nat) (k : PyStr) (ttl : Nat) (v : PyVal) : Store :=
  alUpsert s k (v, now + ttl)

/-- Session key: `session_prefix + session_id`. -/
def sessionKeyOf (sid : PyStr) : PyStr := pys "session:" ++ sid

/-- Counter key: `counter_prefix + key`. -/
def counterKeyOf (key : PyStr) : PyStr := pys "counter:" ++ key

/-- `SessionManager.session_timeout`. -/
def session_timeout : Nat := 3600

/-- Model of `datetime.now().isoformat()` at clock value `now`. -/
def isoNow (now : Nat) : PyStr := (toString now).data

/-- `SessionManager.get_session`: read the session, and when it exists
update its `last_access` field and write it back with a fresh full TTL.
Returns the value handed to the caller and the connection afterwards.
A raised exception anywhere in the body is caught and yields `None` with
the store untouched; a stored non-dict value makes the `last_access`
assignment raise. -/
def get_session (c : RedisConn) (now : Nat) (sid : PyStr) : Option PyVal × RedisConn :=
  if c.failing then (none, c)
  else
    match storeGet c.store now (sessionKeyOf sid) with
    | none => (none, c)
    | some v =>
      if pyTruthy v then
        match v with
        | .dict d =>
          let d2 := alUpsert d (pys "last_access") (PyVal.str (isoNow now))
          (some (.dict d2),
            RedisConn.mk c.failing
              (storeSetex c.store now (sessionKeyOf sid) session_timeout (.dict d2)))
        | _ => (none, c)
      else (none, c)

/-- `CounterManager.get_count`: read the counter key and convert with
`int(...)`; a falsy or absent reply, a failed conversion, or a raised
exception all yield `0`. -/
def get_count (c : RedisConn) (now : Nat) (key : PyStr) : Int :=
  if c.failing then 0
  else
    match storeGet c.store now (counterKeyOf key) with
    | none => 0
    | some v =>
      if pyTruthy v then
        match pyToIntOpt v with
        | some n => n
        | none => 0
      else 0

/-! ## Discovery Coordinator majority resolution (spec-modelled)

The source delegates master discovery to the external `redis.sentinel`
library, so no quorum logic exists under `src/`. -/

/-- A monitor-reported master address. -/
abbrev Addr := PyStr × Int

/-- Number of responding monitors voting for a given address. -/
def countAddr : List Addr → Addr → Nat
  | [], _ => 0
  | x :: t, a => (if x = a then 1 else 0) + countAddr t a

/-- Modelled from the spec: the Discovery Coordinator's majority rule of
section 4.2 is not implemented under `src/` (the demo calls the external
`redis.sentinel` library for discovery).  Each responding monitor
contributes its reported master address as one vote; resolution selects an
address on which a strict majority of the responses agree, if one exists. -/
def resolveMajority (votes : List Addr) : Option Addr :=
  votes.find? (fun a => decide (votes.length < 2 * countAddr votes a))

/-! ## Helper lemmas -/

theorem alGet_alUpsert_self {α : Type} (l : List (PyStr × α)) (k : PyStr) (v : α) :
    alGet (alUpsert l k v) k = some v := by
  induction l with
  | nil => simp [alUpsert, alGet]
  | cons hd t ih =>
    obtain ⟨k2, v2⟩ := hd
    by_cases hk : k2 = k <;> simp [alUpsert, alGet, hk, ih]

theorem alGet_alUpsert_ne {α : Type} (l : List (PyStr × α)) (k k2 : PyStr) (v : α)
    (h : k ≠ k2) : alGet (alUpsert l k v) k2 = alGet l k2 := by
  induction l with
  | nil => simp [alUpsert, alGet, h]
  | cons hd t ih =>
    obtain ⟨k3, v3⟩ := hd
    by_cases hk : k3 = k
    · subst hk
      simp [alUpsert, alGet, h]
    · by_cases hk2 : k3 = k2
      · subst hk2
        simp [alUpsert, alGet, hk]
      · simp [alUpsert, alGet, hk, hk2, ih]

/-- Shape of the `discover_master` fallback: it yields a dict or raises. -/
theorem discoverFallback_cases (env : MasterEnv) :
    (∃ d, discoverFallback env = .ok (.dict d)) ∨ discoverFallback env = .error () := by
  unfold discoverFallback
  cases hd : env.discovered with
  | error e =>
    cases e
    exact Or.inr rfl
  | ok addr =>
    by_cases ht : pyTruthy addr
    · simp only [ht, if_true]
      cases h0 : pyIndex addr 0 with
      | error e0 => cases e0; exact Or.inr rfl
      | ok ip =>
        cases h1 : pyIndex addr 1 with
        | error e1 => cases e1; exact Or.inr rfl
        | ok port => exact Or.inl ⟨_, rfl⟩
    · simp only [ht, if_false]
      exact Or.inl ⟨_, rfl⟩

/-- On a non-dict `sentinel_masters` reply, `get_master_info` returns a dict. -/
theorem get_master_info_of_not_dict (name : PyStr) (env : MasterEnv) (v : PyVal)
    (h : env.masters = .ok v) (hd : v.isDict = false) :
    ∃ d, get_master_info name env = .dict d := by
  have hbody : get_master_info_try name env =
      match discoverFallback env with
      | .ok w => .ok w
      | .error _ => .ok (.dict []) := by
    unfold get_master_info_try
    rw [h]
    cases v <;> first
      | rfl
      | (simp [PyVal.isDict] at hd)
  rcases discoverFallback_cases env with ⟨d, hf⟩ | hf
  · exact ⟨d, by simp [get_master_info, hbody, hf]⟩
  · exact ⟨[], by simp [get_master_info, hbody, hf]⟩

/-- On a non-list `sentinel_slaves` reply, the fallback over a replication
info dict is taken. -/
theorem get_slaves_info_fallback_dict (v : PyVal) (hv : v.isList = false)
    (d : List (PyStr × PyVal)) :
    get_slaves_info (SlavesEnv.mk (.ok v) (.ok (.dict d))) = slavesFromInfo d := by
  cases v <;> simp_all [get_slaves_info, get_slaves_info_try, PyVal.isList, slavesFromInfo]

/-- On a non-list `sentinel_slaves` reply with a raising `info` call, the
inner `except` returns the empty list. -/
theorem get_slaves_info_fallback_raise (v : PyVal) (hv : v.isList = false) :
    get_slaves_info (SlavesEnv.mk (.ok v) (.error ())) = .list [] := by
  cases v <;> simp_all [get_slaves_info, get_slaves_info_try, PyVal.isList]

/-- On a non-list `sentinel_slaves` reply with a non-dict `info` reply, the
attribute error is caught and the empty list returned. -/
theorem get_slaves_info_fallback_not_dict (v info : PyVal) (hv : v.isList = false)
    (hi : info.isDict = false) :
    get_slaves_info (SlavesEnv.mk (.ok v) (.ok info)) = .list [] := by
  cases v <;> cases info <;>
    simp_all [get_slaves_info, get_slaves_info_try, PyVal.isList, PyVal.isDict]

/-! ## Claims -/

/-- C1: when the underlying sentinel call raises an exception, each monitor
query operation returns its Unavailable value — `get_master_info` the empty
dict, `get_slaves_info` and `get_sentinels_info` the empty list — instead of
propagating the exception. -/
theorem monitor_queries_absorb_exceptions
    (name : PyStr) (sentinels : List (PyStr × Int))
    (e1 : MasterEnv) (e2 : SlavesEnv) (e3 : SentinelsEnv)
    (h1 : e1.masters = .error ()) (h2 : e2.slavesReply = .error ())
    (h3 : e3.sentinelsReply = .error ()) :
    get_master_info name e1 = .dict [] ∧ get_slaves_info e2 = .list []
      ∧ get_sentinels_info sentinels e3 = .list [] := by
  refine ⟨?_, ?_, ?_⟩
  · simp [get_master_info, get_master_info_try, h1]
  · simp [get_slaves_info, get_slaves_info_try, h2]
  · simp [get_sentinels_info, get_sentinels_info_try, h3]

theorem monitor_queries_absorb_exceptions_witness :
    get_master_info (pys "mymaster") (MasterEnv.mk (.error ()) (.error ())) = .dict []
    ∧ get_slaves_info (SlavesEnv.mk (.error ()) (.error ())) = .list []
    ∧ get_sentinels_info [(pys "10.0.0.5", 26379)] (SentinelsEnv.mk (.error ())) = .list [] :=
  monitor_queries_absorb_exceptions (pys "mymaster") [(pys "10.0.0.5", 26379)]
    (MasterEnv.mk (.error ()) (.error ())) (SlavesEnv.mk (.error ()) (.error ()))
    (SentinelsEnv.mk (.error ())) rfl rfl rfl

/-- C2: a reply that does not match the expected shape (a non-dict from
`sentinel_masters`, a non-list from `sentinel_slaves` or
`sentinel_sentinels`) never escapes as an exception: each query still
returns a value of its result shape. -/
theorem malformed_replies_never_crash
    (name : PyStr) (sentinels : List (PyStr × Int))
    (e1 : MasterEnv) (e2 : SlavesEnv) (e3 : SentinelsEnv) (v1 v2 v3 : PyVal) :
    (e1.masters = .ok v1 → v1.isDict = false → ∃ d, get_master_info name e1 = .dict d)
    ∧ (e2.slavesReply = .ok v2 → v2.isList = false → ∃ l, get_slaves_info e2 = .list l)
    ∧ (e3.sentinelsReply = .ok v3 → v3.isList = false →
        ∃ l, get_sentinels_info sentinels e3 = .list l) := by
  refine ⟨?_, ?_, ?_⟩
  · intro h hd
    exact get_master_info_of_not_dict name e1 v1 h hd
  · intro h hl
    have he2 : e2 = SlavesEnv.mk (.ok v2) e2.replInfo := by
      cases e2; cases h; rfl
    rw [he2]
    cases hw : e2.replInfo with
    | error e =>
      cases e
      exact ⟨[], get_slaves_info_fallback_raise v2 hl⟩
    | ok info =>
      cases info with
      | dict d =>
        exact ⟨_, by rw [get_slaves_info_fallback_dict v2 hl d]; rfl⟩
      | str s => exact ⟨[], get_slaves_info_fallback_not_dict v2 (.str s) hl rfl⟩
      | int n => exact ⟨[], get_slaves_info_fallback_not_dict v2 (.int n) hl rfl⟩
      | bool b => exact ⟨[], get_slaves_info_fallback_not_dict v2 (.bool b) hl rfl⟩
      | none => exact ⟨[], get_slaves_info_fallback_not_dict v2 .none hl rfl⟩
      | list l => exact ⟨[], get_slaves_info_fallback_not_dict v2 (.list l) hl rfl⟩
  · intro h hl
    cases v3 <;>
      simp_all [get_sentinels_info, get_sentinels_info_try, PyVal.isList]

theorem malformed_replies_never_crash_witness :
    (∃ d, get_master_info (pys "mymaster")
      (MasterEnv.mk (.ok (.bool true)) (.error ())) = .dict d)
    ∧ (∃ l, get_slaves_info (SlavesEnv.mk (.ok (.bool true)) (.error ())) = .list l)
    ∧ (∃ l, get_sentinels_info [(pys "10.0.0.5", 26379)]
        (SentinelsEnv.mk (.ok (.bool true))) = .list l) := by
  obtain ⟨p1, p2, p3⟩ := malformed_replies_never_crash (pys "mymaster")
    [(pys "10.0.0.5", 26379)] (MasterEnv.mk (.ok (.bool true)) (.error ()))
    (SlavesEnv.mk (.ok (.bool true)) (.error ()))
    (SentinelsEnv.mk (.ok (.bool true))) (.bool true) (.bool true) (.bool true)
  exact ⟨p1 rfl rfl, p2 rfl rfl, p3 rfl rfl⟩

/-- C9: on a non-list `sentinel_sentinels` reply, `get_sentinels_info`
returns the statically configured monitor endpoints — one dict per
configured `(host, port)` pair with `ip` the host, `port` the stringified
port and `flags` the literal `sentinel` — not the empty Unavailable value. -/
theorem sentinels_fallback_uses_configured_endpoints
    (sentinels : List (PyStr × Int)) (e : SentinelsEnv) (v : PyVal)
    (h : e.sentinelsReply = .ok v) (hl : v.isList = false) :
    get_sentinels_info sentinels e
      = .list (sentinels.map (fun hp =>
          PyVal.dict [(pys "ip", .str hp.1), (pys "port", .str (pyToStr (.int hp.2))),
            (pys "flags", .str (pys "sentinel"))])) := by
  cases v <;>
    simp_all [get_sentinels_info, get_sentinels_info_try, PyVal.isList, configSentinelDicts]

theorem sentinels_fallback_uses_configured_endpoints_witness :
    get_sentinels_info [(pys "10.0.0.5", 26379), (pys "10.0.0.6", 26380)]
      (SentinelsEnv.mk (.ok (.bool true)))
      = .list [
          .dict [(pys "ip", .str (pys "10.0.0.5")), (pys "port", .str (pyToStr (.int 26379))),
            (pys "flags", .str (pys "sentinel"))],
          .dict [(pys "ip", .str (pys "10.0.0.6")), (pys "port", .str (pyToStr (.int 26380))),
            (pys "flags", .str (pys "sentinel"))]] :=
  sentinels_fallback_uses_configured_endpoints
    [(pys "10.0.0.5", 26379), (pys "10.0.0.6", 26380)]
    (SentinelsEnv.mk (.ok (.bool true))) (.bool true) rfl rfl

/-- C10: `get_count` returns 0 when the read raises, when the counter key
is absent, and when the stored counter value is the string `0`, so a
returned 0 does not distinguish the three situations; the call itself
always returns rather than raising. -/
theorem get_count_zero_ambiguous (c : RedisConn) (now : Nat) (key : PyStr) :
    (c.failing = true → get_count c now key = 0)
    ∧ (c.failing = false → storeGet c.store now (counterKeyOf key) = none →
        get_count c now key = 0)
    ∧ (c.failing = false →
        storeGet c.store now (counterKeyOf key) = some (.str (pys "0")) →
        get_count c now key = 0) := by
  refine ⟨?_, ?_, ?_⟩
  · intro h
    simp [get_count, h]
  · intro hf hg
    simp [get_count, hf, hg]
  · intro hf hg
    simp only [get_count, hf, hg]
    decide

theorem get_count_zero_ambiguous_witness :
    get_count (RedisConn.mk true []) 5 (pys "k") = 0
    ∧ get_count (RedisConn.mk false []) 5 (pys "k") = 0
    ∧ get_count (RedisConn.mk false [(pys "counter:k", (.str (pys "0"), 100))]) 5 (pys "k") = 0 := by
  obtain ⟨p1, p2, p3⟩ := get_count_zero_ambiguous (RedisConn.mk true []) 5 (pys "k")
  obtain ⟨q1, q2, q3⟩ := get_count_zero_ambiguous (RedisConn.mk false []) 5 (pys "k")
  obtain ⟨r1, r2, r3⟩ :=
    get_count_zero_ambiguous (RedisConn.mk false [(pys "counter:k", (.str (pys "0"), 100))]) 5 (pys "k")
  exact ⟨p1 rfl, q2 rfl rfl, r3 rfl rfl⟩

/-- C3: when the failover command is accepted (a truthy reply) and both
master addresses are observed, `test_failover` reports success exactly when
the address observed after the wait differs from the one observed before;
an unchanged address is reported as failure, never success. -/
theorem failover_success_iff_address_changed
    (name : PyStr) (env : FailoverEnv) (r : PyVal) (a1 a2 : PyStr)
    (hr : env.failoverReply = .ok r) (ht : pyTruthy r = true)
    (h1 : addrString (get_master_info name env.before) = .ok a1)
    (h2 : addrString (get_master_info name env.after) = .ok a2) :
    test_failover name env = true ↔ a2 ≠ a1 := by
  simp [test_failover, test_failover_traced, h1, hr, ht, h2]

theorem failover_success_iff_address_changed_witness :
    test_failover (pys "m") (FailoverEnv.mk
      (MasterEnv.mk
        (.ok (.dict [(pys "m",
          .dict [(pys "ip", .str (pys "10.0.0.1")), (pys "port", .int 6379)])]))
        (.error ()))
      (.ok (.bool true))
      (MasterEnv.mk
        (.ok (.dict [(pys "m",
          .dict [(pys "ip", .str (pys "10.0.0.2")), (pys "port", .int 6379)])]))
        (.error ()))) = true
    ↔ pys "10.0.0.2:6379" ≠ pys "10.0.0.1:6379" :=
  failover_success_iff_address_changed (pys "m") _ (.bool true)
    (pys "10.0.0.1:6379") (pys "10.0.0.2:6379") rfl rfl rfl rfl

/-- C4 (amended): the manager keeps no last-known master view.  Even while
a monitor remains reachable and answering — the `sentinel_masters` call
returns a well-formed dict — `get_master_info` yields the empty value
whenever that dict does not contain the configured master name. -/
theorem master_query_empty_despite_reachable_monitor
    (name : PyStr) (env : MasterEnv) (d : List (PyStr × PyVal))
    (hm : env.masters = .ok (.dict d)) (hn : alGet d name = none) :
    env.masters ≠ .error () ∧ get_master_info name env = .dict [] := by
  constructor
  · rw [hm]
    intro hcon
    exact Except.noConfusion hcon
  · simp [get_master_info, get_master_info_try, hm, hn]

theorem master_query_empty_despite_reachable_monitor_witness :
    (MasterEnv.mk (.ok (.dict [(pys "othermaster", PyVal.none)])) (.error ())).masters
        ≠ .error ()
    ∧ get_master_info (pys "mymaster")
        (MasterEnv.mk (.ok (.dict [(pys "othermaster", PyVal.none)])) (.error ()))
        = .dict [] :=
  master_query_empty_despite_reachable_monitor (pys "mymaster")
    (MasterEnv.mk (.ok (.dict [(pys "othermaster", PyVal.none)])) (.error ()))
    [(pys "othermaster", PyVal.none)] rfl rfl

/-- C4 (counterexample to the claim as stated): with a reachable monitor
whose reply is the well-formed empty dict, the master-information query
yields the empty value, so the view is not preserved while a monitor can
still answer. -/
theorem master_view_invariant_counterexample :
    (MasterEnv.mk (.ok (.dict [])) (.error ())).masters ≠ .error ()
    ∧ get_master_info (pys "mymaster") (MasterEnv.mk (.ok (.dict [])) (.error ()))
        = .dict [] := by
  constructor
  · intro hcon
    exact Except.noConfusion hcon
  · rfl

/-- C5 (spec-modelled): with 3 monitors of which 2 report master address
`a` and 1 reports `b`, majority resolution converges to `a`, in every
response order. -/
theorem majority_two_of_three_converges (a b : Addr) (h : a ≠ b) :
    resolveMajority [a, a, b] = some a ∧ resolveMajority [a, b, a] = some a
      ∧ resolveMajority [b, a, a] = some a := by
  have hba : ¬ b = a := fun he => h he.symm
  refine ⟨?_, ?_, ?_⟩ <;>
    simp [resolveMajority, countAddr, List.find?, hba, h]

theorem majority_two_of_three_converges_witness :
    resolveMajority [(pys "10.0.0.1", 6379), (pys "10.0.0.1", 6379), (pys "10.0.0.2", 6379)]
        = some (pys "10.0.0.1", 6379)
    ∧ resolveMajority [(pys "10.0.0.1", 6379), (pys "10.0.0.2", 6379), (pys "10.0.0.1", 6379)]
        = some (pys "10.0.0.1", 6379)
    ∧ resolveMajority [(pys "10.0.0.2", 6379), (pys "10.0.0.1", 6379), (pys "10.0.0.1", 6379)]
        = some (pys "10.0.0.1", 6379) :=
  majority_two_of_three_converges (pys "10.0.0.1", 6379) (pys "10.0.0.2", 6379) (by decide)

/-- C6: one `test_failover` invocation issues the failover command at most
once; when the command is rejected (falsy reply), or accepted but the
observed master address is unchanged, the invocation reports failure with
the command still having been issued exactly once — it is never re-issued
within the invocation. -/
theorem failover_command_issued_at_most_once (name : PyStr) (env : FailoverEnv) :
    failoverCommandCount name env ≤ 1
    ∧ (∀ r a, env.failoverReply = .ok r → pyTruthy r = false →
        addrString (get_master_info name env.before) = .ok a →
        test_failover name env = false ∧ failoverCommandCount name env = 1)
    ∧ (∀ r a, env.failoverReply = .ok r → pyTruthy r = true →
        addrString (get_master_info name env.before) = .ok a →
        addrString (get_master_info name env.after) = .ok a →
        test_failover name env = false ∧ failoverCommandCount name env = 1) := by
  refine ⟨?_, ?_, ?_⟩
  · unfold failoverCommandCount test_failover_traced
    cases addrString (get_master_info name env.before) with
    | error e => simp
    | ok ca =>
      cases env.failoverReply with
      | error e => simp
      | ok r =>
        by_cases ht : pyTruthy r
        · simp only [ht, if_true]
          cases addrString (get_master_info name env.after) <;> simp
        · simp [ht]
  · intro r a hr ht ha
    constructor <;>
      simp [test_failover, failoverCommandCount, test_failover_traced, ha, hr, ht]
  · intro r a hr ht hb ha
    constructor <;>
      simp [test_failover, failoverCommandCount, test_failover_traced, hb, hr, ht, ha]

theorem failover_command_issued_at_most_once_witness :
    test_failover (pys "m")
      (FailoverEnv.mk (MasterEnv.mk (.error ()) (.error ())) (.ok (.bool false))
        (MasterEnv.mk (.error ()) (.error ()))) = false
    ∧ failoverCommandCount (pys "m")
      (FailoverEnv.mk (MasterEnv.mk (.error ()) (.error ())) (.ok (.bool false))
        (MasterEnv.mk (.error ()) (.error ()))) = 1 :=
  (failover_command_issued_at_most_once (pys "m")
    (FailoverEnv.mk (MasterEnv.mk (.error ()) (.error ())) (.ok (.bool false))
      (MasterEnv.mk (.error ()) (.error ())))).2.1
    (.bool false) (pys "unknown:unknown") rfl rfl rfl

/-- The session dict as rewritten by `get_session`: the stored fields with
`last_access` replaced by the current timestamp. -/
def refreshedSession (d : List (PyStr × PyVal)) (now : Nat) : List (PyStr × PyVal) :=
  alUpsert d (pys "last_access") (PyVal.str (isoNow now))

/-- C8: on an existing, unexpired, non-empty session dict, `get_session`
is not read-only: it returns the session with `last_access` set to the
current timestamp, writes that refreshed dict back under the session key
with the full 3600-second timeout (expiry reset to `now + 3600`), and the
`username`, `created_at` and `user_data` fields of the returned session
are unchanged. -/
theorem get_session_refreshes_and_preserves
    (c : RedisConn) (now : Nat) (sid : PyStr) (d : List (PyStr × PyVal))
    (hf : c.failing = false)
    (hg : storeGet c.store now (sessionKeyOf sid) = some (.dict d))
    (hne : d ≠ []) :
    get_session c now sid
      = (some (.dict (refreshedSession d now)),
         RedisConn.mk false (storeSetex c.store now (sessionKeyOf sid) session_timeout
           (.dict (refreshedSession d now))))
    ∧ alGet (refreshedSession d now) (pys "last_access") = some (.str (isoNow now))
    ∧ alGet (refreshedSession d now) (pys "username") = alGet d (pys "username")
    ∧ alGet (refreshedSession d now) (pys "created_at") = alGet d (pys "created_at")
    ∧ alGet (refreshedSession d now) (pys "user_data") = alGet d (pys "user_data")
    ∧ alGet (storeSetex c.store now (sessionKeyOf sid) session_timeout
          (.dict (refreshedSession d now))) (sessionKeyOf sid)
        = some ((.dict (refreshedSession d now)), now + 3600) := by
  have hde : d.isEmpty = false := by
    cases d with
    | nil => exact absurd rfl hne
    | cons hd t => rfl
  refine ⟨?_, ?_, ?_, ?_, ?_, ?_⟩
  · simp [get_session, hf, hg, pyTruthy, hde, refreshedSession]
  · exact alGet_alUpsert_self d (pys "last_access") (PyVal.str (isoNow now))
  · exact alGet_alUpsert_ne d (pys "last_access") (pys "username") _ (by decide)
  · exact alGet_alUpsert_ne d (pys "last_access") (pys "created_at") _ (by decide)
  · exact alGet_alUpsert_ne d (pys "last_access") (pys "user_data") _ (by decide)
  · rw [show session_timeout = 3600 from rfl]
    exact alGet_alUpsert_self c.store (sessionKeyOf sid) _

theorem get_session_refreshes_and_preserves_witness :
    get_session (RedisConn.mk false
        [(pys "session:abc", (.dict [(pys "username", .str (pys "alice"))], 50))]) 10 (pys "abc")
      = (some (.dict (refreshedSession [(pys "username", .str (pys "alice"))] 10)),
         RedisConn.mk false (storeSetex
           [(pys "session:abc", (.dict [(pys "username", .str (pys "alice"))], 50))] 10
           (sessionKeyOf (pys "abc")) session_timeout
           (.dict (refreshedSession [(pys "username", .str (pys "alice"))] 10))))
    ∧ alGet (refreshedSession [(pys "username", .str (pys "alice"))] 10) (pys "last_access")
        = some (.str (isoNow 10))
    ∧ alGet (refreshedSession [(pys "username", .str (pys "alice"))] 10) (pys "username")
        = alGet [(pys "username", PyVal.str (pys "alice"))] (pys "username")
    ∧ alGet (refreshedSession [(pys "username", .str (pys "alice"))] 10) (pys "created_at")
        = alGet [(pys "username", PyVal.str (pys "alice"))] (pys "created_at")
    ∧ alGet (refreshedSession [(pys "username", .str (pys "alice"))] 10) (pys "user_data")
        = alGet [(pys "username", PyVal.str (pys "alice"))] (pys "user_data")
    ∧ alGet (storeSetex
          [(pys "session:abc", (.dict [(pys "username", .str (pys "alice"))], 50))] 10
          (sessionKeyOf (pys "abc")) session_timeout
          (.dict (refreshedSession [(pys "username", .str (pys "alice"))] 10)))
        (sessionKeyOf (pys "abc"))
        = some ((.dict (refreshedSession [(pys "username", .str (pys "alice"))] 10)), 10 + 3600) :=
  get_session_refreshes_and_preserves
    (RedisConn.mk false
      [(pys "session:abc", (.dict [(pys "username", .str (pys "alice"))], 50))])
    10 (pys "abc") [(pys "username", .str (pys "alice"))] rfl rfl
    (List.cons_ne_nil _ _)

/-- Splitting a separator-free string yields a single chunk. -/
theorem pySplitAux_of_not_mem (sep : Char) :
    ∀ (l acc : List Char), sep ∉ l → pySplitAux sep l acc = [acc.reverse ++ l]
  | [], acc, _ => by simp [pySplitAux]
  | c :: t, acc, h => by
    have hc : ¬ c = sep := by
      intro he
      exact h (by simp [he])
    have ht : sep ∉ t := by
      intro hm
      exact h (List.mem_cons_of_mem _ hm)
    simp only [pySplitAux]
    rw [if_neg hc, pySplitAux_of_not_mem sep t (c :: acc) ht]
    simp

/-- Splitting peels off the chunk before the first separator. -/
theorem pySplitAux_append (sep : Char) :
    ∀ (a acc rest : List Char), sep ∉ a →
      pySplitAux sep (a ++ sep :: rest) acc
        = (acc.reverse ++ a) :: pySplitAux sep rest []
  | [], acc, rest, _ => by simp [pySplitAux]
  | c :: t, acc, rest, h => by
    have hc : ¬ c = sep := by
      intro he
      exact h (by simp [he])
    have ht : sep ∉ t := by
      intro hm
      exact h (List.mem_cons_of_mem _ hm)
    rw [List.cons_append]
    simp only [pySplitAux]
    rw [if_neg hc, pySplitAux_append sep t (c :: acc) rest ht]
    simp

/-- Taking up to the first equals sign recovers the key part. -/
theorem takeWhile_until_eq :
    ∀ (k v : List Char), '=' ∉ k →
      (k ++ '=' :: v).takeWhile (fun c => c != '=') = k
  | [], v, _ => by simp
  | c :: t, v, h => by
    have hc : c ≠ '=' := by
      intro he
      exact h (by simp [he])
    have ht : '=' ∉ t := by
      intro hm
      exact h (List.mem_cons_of_mem _ hm)
    simp [List.takeWhile_cons, hc, takeWhile_until_eq t v ht]

/-- Dropping up to the first equals sign leaves it and the value part. -/
theorem dropWhile_until_eq :
    ∀ (k v : List Char), '=' ∉ k →
      (k ++ '=' :: v).dropWhile (fun c => c != '=') = '=' :: v
  | [], v, _ => by simp
  | c :: t, v, h => by
    have hc : c ≠ '=' := by
      intro he
      exact h (by simp [he])
    have ht : '=' ∉ t := by
      intro hm
      exact h (List.mem_cons_of_mem _ hm)
    simp [List.dropWhile_cons, hc, dropWhile_until_eq t v ht]

/-- Replication entry string of the form `ip=<ip>,port=<port>,state=<st>`. -/
def slaveEntry (ip port st : PyStr) : PyStr :=
  pys "ip=" ++ ip ++ (',' :: (pys "port=" ++ port ++ (',' :: (pys "state=" ++ st))))

/-- The row the `get_slaves_info` fallback appends for such an entry. -/
def slaveRow (ip port st : PyStr) : PyVal :=
  .dict [(pys "ip", .str ip), (pys "port", .str port),
    (pys "flags", .str (pys "slave," ++ st))]

theorem pySplit_slaveEntry (ip port st : PyStr)
    (hip : ',' ∉ ip) (hp : ',' ∉ port) (hs : ',' ∉ st) :
    pySplit ',' (slaveEntry ip port st)
      = [pys "ip=" ++ ip, pys "port=" ++ port, pys "state=" ++ st] := by
  have h1 : ',' ∉ pys "ip=" ++ ip := by
    intro hm
    rcases List.mem_append.1 hm with hin | hin
    · exact absurd hin (by decide)
    · exact hip hin
  have h2 : ',' ∉ pys "port=" ++ port := by
    intro hm
    rcases List.mem_append.1 hm with hin | hin
    · exact absurd hin (by decide)
    · exact hp hin
  have h3 : ',' ∉ pys "state=" ++ st := by
    intro hm
    rcases List.mem_append.1 hm with hin | hin
    · exact absurd hin (by decide)
    · exact hs hin
  unfold pySplit slaveEntry
  rw [pySplitAux_append ',' (pys "ip=" ++ ip) []
      (pys "port=" ++ port ++ (',' :: (pys "state=" ++ st))) h1,
    pySplitAux_append ',' (pys "port=" ++ port) [] (pys "state=" ++ st) h2,
    pySplitAux_of_not_mem ',' (pys "state=" ++ st) [] h3]
  simp

theorem parseSlaveString_entry (ip port st : PyStr)
    (hip : ',' ∉ ip) (hp : ',' ∉ port) (hs : ',' ∉ st)
    (tip : pyStrip ip = ip) (tp : pyStrip port = port) (ts : pyStrip st = st) :
    parseSlaveString (slaveEntry ip port st)
      = [(pys "ip", ip), (pys "port", port), (pys "state", st)] := by
  have m0 : '=' ∈ pys "ip=" ++ ip := List.mem_append_left _ (by decide)
  have m1 : '=' ∈ pys "port=" ++ port := List.mem_append_left _ (by decide)
  have m2 : '=' ∈ pys "state=" ++ st := List.mem_append_left _ (by decide)
  unfold parseSlaveString
  rw [pySplit_slaveEntry ip port st hip hp hs]
  simp only [List.foldl]
  rw [if_pos m0, if_pos m1, if_pos m2,
    show pys "ip=" ++ ip = pys "ip" ++ '=' :: ip from rfl,
    show pys "port=" ++ port = pys "port" ++ '=' :: port from rfl,
    show pys "state=" ++ st = pys "state" ++ '=' :: st from rfl,
    takeWhile_until_eq (pys "ip") ip (by decide),
    dropWhile_until_eq (pys "ip") ip (by decide),
    takeWhile_until_eq (pys "port") port (by decide),
    dropWhile_until_eq (pys "port") port (by decide),
    takeWhile_until_eq (pys "state") st (by decide),
    dropWhile_until_eq (pys "state") st (by decide)]
  simp only [List.drop_one, List.tail_cons]
  rw [show pyStrip (pys "ip") = pys "ip" from rfl,
    show pyStrip (pys "port") = pys "port" from rfl,
    show pyStrip (pys "state") = pys "state" from rfl,
    tip, tp, ts]
  rfl

theorem slaveSummary_entry (ip port st : PyStr)
    (hip : ',' ∉ ip) (hp : ',' ∉ port) (hs : ',' ∉ st)
    (tip : pyStrip ip = ip) (tp : pyStrip port = port) (ts : pyStrip st = st) :
    slaveSummary (.str (slaveEntry ip port st)) = slaveRow ip port st := by
  have hparse := parseSlaveString_entry ip port st hip hp hs tip tp ts
  have n1 : ¬ pys "ip" = pys "port" := by decide
  have n2 : ¬ pys "ip" = pys "state" := by decide
  have n3 : ¬ pys "port" = pys "state" := by decide
  simp [slaveSummary, slaveRow, hparse, alGetD, alGet, pyToStr, n1, n2, n3]

/-- C7: on a non-list `sentinel_slaves` reply, `get_slaves_info` falls back
to the master's replication info: each reported connected slave whose entry
has the form `ip=...,port=...,state=...` is parsed — splitting on commas
and on the first equals sign of each part — into a dict with string fields
`ip` and `port` and with `flags` equal to `slave,<state>`; and when the
fallback itself raises, the empty list is returned. -/
theorem slaves_fallback_parses_replication_entries
    (v : PyVal) (hv : v.isList = false)
    (ip0 p0 s0 ip1 p1 s1 : PyStr)
    (h0 : ',' ∉ ip0) (h1 : ',' ∉ p0) (h2 : ',' ∉ s0)
    (h3 : ',' ∉ ip1) (h4 : ',' ∉ p1) (h5 : ',' ∉ s1)
    (t0 : pyStrip ip0 = ip0) (t1 : pyStrip p0 = p0) (t2 : pyStrip s0 = s0)
    (t3 : pyStrip ip1 = ip1) (t4 : pyStrip p1 = p1) (t5 : pyStrip s1 = s1) :
    get_slaves_info (SlavesEnv.mk (.ok v)
        (.ok (.dict [(pys "connected_slaves", .int 2),
          (pys "slave0", .str (slaveEntry ip0 p0 s0)),
          (pys "slave1", .str (slaveEntry ip1 p1 s1))])))
      = .list [slaveRow ip0 p0 s0, slaveRow ip1 p1 s1]
    ∧ get_slaves_info (SlavesEnv.mk (.ok v) (.error ())) = .list [] := by
  refine ⟨?_, get_slaves_info_fallback_raise v hv⟩
  rw [get_slaves_info_fallback_dict v hv,
    show slavesFromInfo [(pys "connected_slaves", PyVal.int 2),
        (pys "slave0", PyVal.str (slaveEntry ip0 p0 s0)),
        (pys "slave1", PyVal.str (slaveEntry ip1 p1 s1))]
      = PyVal.list [slaveSummary (.str (slaveEntry ip0 p0 s0)),
          slaveSummary (.str (slaveEntry ip1 p1 s1))] from rfl,
    slaveSummary_entry ip0 p0 s0 h0 h1 h2 t0 t1 t2,
    slaveSummary_entry ip1 p1 s1 h3 h4 h5 t3 t4 t5]

theorem slaves_fallback_parses_replication_entries_witness :
    get_slaves_info (SlavesEnv.mk (.ok (.dict []))
        (.ok (.dict [(pys "connected_slaves", .int 2),
          (pys "slave0", .str (slaveEntry (pys "10.0.0.2") (pys "6379") (pys "online"))),
          (pys "slave1", .str (slaveEntry (pys "10.0.0.3") (pys "6380") (pys "online")))])))
      = .list [slaveRow (pys "10.0.0.2") (pys "6379") (pys "online"),
          slaveRow (pys "10.0.0.3") (pys "6380") (pys "online")]
    ∧ get_slaves_info (SlavesEnv.mk (.ok (.dict [])) (.error ())) = .list [] :=
  slaves_fallback_parses_replication_entries (.dict []) rfl
    (pys "10.0.0.2") (pys "6379") (pys "online")
    (pys "10.0.0.3") (pys "6380") (pys "online")
    (by decide) (by decide) (by decide) (by decide) (by decide) (by decide)
    rfl rfl rfl rfl rfl rfl

end RedisSentinelDemo
